import Mathlib

/-!
Verification model of the DPiStepper host-side driver exercised by
`src/DPiStepper_Startup.py`.  The repository's only source file is a demo
script; the `DPiStepper` class it drives lives in the external `dpeaDPi`
package, so the transport, configuration and motion layers below are
modelled from the specification (each such definition says so in its doc
comment).  The demo script and its embedded library documentation fix the
observable shapes: per-board axes numbered 0-2, return tuples of
`getStepperStatus` and `getCurrentPositionInSteps`, the 3-attempt retry
discipline of the communication layer, and homing that zeroes the position
on success.
-/

namespace DPiStepperModel

/-- Modelled from the spec: the transport/retry loop of `sendCommand`
(the DPi communication layer, absent from `src/`).  `tr` gives the outcome
of each physical transmission attempt, `i` is the index of the next
attempt, and the second argument is the number of attempts still allowed.
Returns `(success, errorCounterIncrement, attemptsMade)`: a failed attempt
that is retried increments the error counter, the final give-up does not. -/
def sendAttempts (tr : Nat → Bool) : Nat → Nat → Bool × Nat × Nat
  | _, 0 => (false, 0, 0)
  | i, left + 1 =>
    if tr i then (true, 0, 1)
    else if left = 0 then (false, 0, 1)
    else
      let r := sendAttempts tr (i + 1) left
      (r.1, r.2.1 + 1, r.2.2 + 1)

/-- Modelled from the spec: the fixed retry limit, "3 total attempts". -/
def retryLimit : Nat := 3

/-- Modelled from the spec: one call of the transport send operation. -/
def sendCommand (tr : Nat → Bool) : Bool × Nat × Nat :=
  sendAttempts tr 0 retryLimit

/-- Modelled from the spec: per-axis state of the Axis Configuration Store
and Motion Controller.  A conversion factor of `0` means "not set"; the
setters only ever store strictly positive values.  `target` equals
`position` exactly when the axis is Idle (stopped). -/
structure AxisState where
  microstepping : Nat
  stepsPerMillimeter : ℚ
  stepsPerRevolution : ℚ
  speedInStepsPerSecond : ℚ
  accelerationInStepsPerSecondPerSecond : ℚ
  position : Int
  target : Int
  homed : Bool
  deriving Repr, DecidableEq

/-- Each DPiStepper board drives stepper numbers 0 - 2. -/
def numAxes : Nat := 3

/-- Modelled from the spec: the state of one DPiStepper board object:
its axes, the board-wide motor-enable flag, the cumulative communication
error counter, and the count of physical transmission attempts made. -/
structure BoardState where
  axes : Fin numAxes → AxisState
  motorsEnabled : Bool
  commErrorCount : Nat
  transmissions : Nat

/-- Axis state after the board object is created: conversion factors
unset (0), position at the origin, idle. -/
def initialAxis : AxisState :=
  { microstepping := 1
    stepsPerMillimeter := 0
    stepsPerRevolution := 0
    speedInStepsPerSecond := 0
    accelerationInStepsPerSecondPerSecond := 0
    position := 0
    target := 0
    homed := false }

/-- Board state after the board object is created. -/
def initialBoard : BoardState :=
  { axes := fun _ => initialAxis
    motorsEnabled := false
    commErrorCount := 0
    transmissions := 0 }

/-- Modelled from the spec: one transport round trip on behalf of a
command, folding the error-counter increment and the attempt count into
the board state. -/
def transmit (tr : Nat → Bool) (s : BoardState) : Bool × BoardState :=
  let r := sendCommand tr
  (r.1, { s with
            commErrorCount := s.commErrorCount + r.2.1
            transmissions := s.transmissions + r.2.2 })

/-- Modelled from the spec: result taxonomy of every public operation —
failures are returned, never thrown. -/
inductive DPiResult where
  | ok
  | transportFailure
  | configurationError
  deriving Repr, DecidableEq

/-- Replace the state of one axis, leaving the other axes alone. -/
def updateAxis (s : BoardState) (i : Fin numAxes) (f : AxisState → AxisState) :
    BoardState :=
  { s with axes := Function.update s.axes i (f (s.axes i)) }

/-- The allowed microstepping values are 1, 2, 4, 8, 16 or 32. -/
def validMicrostepping (v : Nat) : Bool :=
  [1, 2, 4, 8, 16, 32].contains v

/-- Modelled from the spec: `setMicrostepping` validates the value before
any transmission; on an out-of-range value it fails with a configuration
error and sends nothing. -/
def setMicrostepping (tr : Nat → Bool) (s : BoardState) (v : Nat) :
    DPiResult × BoardState :=
  if validMicrostepping v then
    let r := transmit tr s
    if r.1 then
      (DPiResult.ok,
        { r.2 with axes := fun i => { r.2.axes i with microstepping := v } })
    else (DPiResult.transportFailure, r.2)
  else (DPiResult.configurationError, s)

/-- Modelled from the spec: `enableMotors` for the whole board. -/
def enableMotors (tr : Nat → Bool) (s : BoardState) (flag : Bool) :
    DPiResult × BoardState :=
  let r := transmit tr s
  if r.1 then (DPiResult.ok, { r.2 with motorsEnabled := flag })
  else (DPiResult.transportFailure, r.2)

/-- Modelled from the spec: `setSpeedInStepsPerSecond` validates that the
speed is strictly positive before any transmission. -/
def setSpeedInStepsPerSecond (tr : Nat → Bool) (s : BoardState)
    (i : Fin numAxes) (v : ℚ) : DPiResult × BoardState :=
  if 0 < v then
    let r := transmit tr s
    if r.1 then
      (DPiResult.ok, updateAxis r.2 i fun a => { a with speedInStepsPerSecond := v })
    else (DPiResult.transportFailure, r.2)
  else (DPiResult.configurationError, s)

/-- Modelled from the spec: `setAccelerationInStepsPerSecondPerSecond`
validates that the acceleration is strictly positive before any
transmission. -/
def setAccelerationInStepsPerSecondPerSecond (tr : Nat → Bool) (s : BoardState)
    (i : Fin numAxes) (v : ℚ) : DPiResult × BoardState :=
  if 0 < v then
    let r := transmit tr s
    if r.1 then
      (DPiResult.ok,
        updateAxis r.2 i fun a => { a with accelerationInStepsPerSecondPerSecond := v })
    else (DPiResult.transportFailure, r.2)
  else (DPiResult.configurationError, s)

/-- Modelled from the spec: `setStepsPerMillimeter` stores a strictly
positive millimeter conversion factor; a non-positive factor is rejected
before any transmission. -/
def setStepsPerMillimeter (tr : Nat → Bool) (s : BoardState)
    (i : Fin numAxes) (n : ℚ) : DPiResult × BoardState :=
  if 0 < n then
    let r := transmit tr s
    if r.1 then
      (DPiResult.ok, updateAxis r.2 i fun a => { a with stepsPerMillimeter := n })
    else (DPiResult.transportFailure, r.2)
  else (DPiResult.configurationError, s)

/-- Modelled from the spec: `setStepsPerRevolution` stores a strictly
positive revolution conversion factor; a non-positive factor is rejected
before any transmission. -/
def setStepsPerRevolution (tr : Nat → Bool) (s : BoardState)
    (i : Fin numAxes) (n : ℚ) : DPiResult × BoardState :=
  if 0 < n then
    let r := transmit tr s
    if r.1 then
      (DPiResult.ok, updateAxis r.2 i fun a => { a with stepsPerRevolution := n })
    else (DPiResult.transportFailure, r.2)
  else (DPiResult.configurationError, s)

/-- Rounding to the nearest integer, ties away from zero: the rounding
direction of the reference unit conversions. -/
def roundTiesAway (q : ℚ) : Int :=
  if 0 ≤ q then Int.floor (q + 1 / 2) else -Int.floor (-q + 1 / 2)

/-- Modelled from the spec: millimeters to whole steps for one axis,
rounding to the nearest step, ties away from zero. -/
def millimetersToSteps (a : AxisState) (x : ℚ) : Int :=
  roundTiesAway (x * a.stepsPerMillimeter)

/-- Modelled from the spec: steps back to millimeters for one axis. -/
def stepsToMillimeters (a : AxisState) (p : Int) : ℚ :=
  (p : ℚ) / a.stepsPerMillimeter

/-- Modelled from the spec: revolutions to whole steps for one axis,
rounding to the nearest step, ties away from zero. -/
def revolutionsToSteps (a : AxisState) (x : ℚ) : Int :=
  roundTiesAway (x * a.stepsPerRevolution)

/-- Modelled from the spec: steps back to revolutions for one axis. -/
def stepsToRevolutions (a : AxisState) (p : Int) : ℚ :=
  (p : ℚ) / a.stepsPerRevolution

/-- Modelled from the spec: `setCurrentPositionInSteps` redefines the
reported coordinate of an axis without commanding any motion: the axis is
left Idle at the new coordinate and nothing else changes. -/
def setCurrentPositionInSteps (tr : Nat → Bool) (s : BoardState)
    (i : Fin numAxes) (p : Int) : DPiResult × BoardState :=
  let r := transmit tr s
  if r.1 then
    (DPiResult.ok, updateAxis r.2 i fun a => { a with position := p, target := p })
  else (DPiResult.transportFailure, r.2)

/-- Modelled from the spec: `moveToAbsolutePositionInSteps`.  With
`wait = true` the call blocks until the axis reports stopped, so the axis
comes back Idle at the target; with `wait = false` the command only starts
the motion (the axis is Moving until enough `tick`s elapse). -/
def moveToAbsolutePositionInSteps (tr : Nat → Bool) (s : BoardState)
    (i : Fin numAxes) (p : Int) (wait : Bool) : DPiResult × BoardState :=
  let r := transmit tr s
  if r.1 then
    if wait then
      (DPiResult.ok, updateAxis r.2 i fun a => { a with position := p, target := p })
    else
      (DPiResult.ok, updateAxis r.2 i fun a => { a with target := p })
  else (DPiResult.transportFailure, r.2)

/-- Modelled from the spec: `moveToRelativePositionInSteps` — an absolute
move whose target is the current position plus the requested delta. -/
def moveToRelativePositionInSteps (tr : Nat → Bool) (s : BoardState)
    (i : Fin numAxes) (d : Int) (wait : Bool) : DPiResult × BoardState :=
  moveToAbsolutePositionInSteps tr s i ((s.axes i).position + d) wait

/-- Modelled from the spec: `moveToHomeInSteps`.  `distanceToHome` is the
physical distance (in steps, in the commanded direction) from the start of
the search to the home sensor.  If the sensor lies within
`maxDistanceToMoveInSteps` the search succeeds, the axis stops at the
sensor and its position is set to zero; otherwise the search gives up
after `maxDistanceToMoveInSteps` steps, returns `false`, and the position
is left wherever the search stopped. -/
def moveToHomeInSteps (tr : Nat → Bool) (s : BoardState) (i : Fin numAxes)
    (direction : Int) (speed : ℚ) (maxDistance : Nat) (distanceToHome : Nat) :
    Bool × BoardState :=
  if (direction = 1 ∨ direction = -1) ∧ 0 < speed then
    let r := transmit tr s
    if r.1 then
      if distanceToHome ≤ maxDistance then
        (true, updateAxis r.2 i fun a =>
          { a with position := 0, target := 0, homed := true })
      else
        (false, updateAxis r.2 i fun a =>
          { a with position := a.position + direction * maxDistance
                   target := a.position + direction * maxDistance
                   homed := false })
    else (false, r.2)
  else (false, s)

/-- An axis is stopped when it has reached its commanded target. -/
def axisStopped (a : AxisState) : Bool :=
  a.position == a.target

/-- Modelled from the spec: `getCurrentPositionInSteps` returns a pair
whose element 0 is the communication-success flag and whose element 1 is
the position (0 when communication failed). -/
def getCurrentPositionInSteps (tr : Nat → Bool) (s : BoardState)
    (i : Fin numAxes) : (Bool × Int) × BoardState :=
  let r := transmit tr s
  (if r.1 then (true, (r.2.axes i).position) else (false, 0), r.2)

/-- Modelled from the spec and the library documentation quoted in the
demo script: `getStepperStatus` returns the 4-tuple
(communication success, motor stopped, motors enabled, at home). -/
def getStepperStatus (tr : Nat → Bool) (s : BoardState) (i : Fin numAxes) :
    (Bool × Bool × Bool × Bool) × BoardState :=
  let r := transmit tr s
  (if r.1 then
      (true, axisStopped (r.2.axes i), r.2.motorsEnabled, (r.2.axes i).homed)
    else (false, false, false, false), r.2)

/-- Modelled from the spec: `getAllMotorsStopped` aggregates the stopped
state across all axes of the board. -/
def getAllMotorsStopped (s : BoardState) : Bool :=
  (List.finRange numAxes).all fun i => axisStopped (s.axes i)

/-- One step of motion toward the target coordinate. -/
def stepToward (p t : Int) : Int :=
  if p < t then p + 1 else if t < p then p - 1 else p

/-- One unit of physical time: every Moving axis advances one step toward
its target; Idle axes stay put. -/
def tick (s : BoardState) : BoardState :=
  { s with axes := fun i =>
      { s.axes i with position := stepToward (s.axes i).position (s.axes i).target } }

/-- `n` units of physical time. -/
def ticks : Nat → BoardState → BoardState
  | 0, s => s
  | n + 1, s => ticks n (tick s)

/-- Modelled from the spec: `ping`, a liveness check with no payload. -/
def ping (tr : Nat → Bool) (s : BoardState) : Bool × BoardState :=
  transmit tr s

/-- Modelled from the spec: `getCommErrorCount` reads the cumulative
communication error counter. -/
def getCommErrorCount (s : BoardState) : Nat :=
  s.commErrorCount

/-- Modelled from the spec: `setSpeedInMillimetersPerSecond` requires the
millimeter conversion factor to have been set (strictly positive);
otherwise it fails with a configuration error before any transmission. -/
def setSpeedInMillimetersPerSecond (tr : Nat → Bool) (s : BoardState)
    (i : Fin numAxes) (v : ℚ) : DPiResult × BoardState :=
  if 0 < (s.axes i).stepsPerMillimeter then
    setSpeedInStepsPerSecond tr s i (v * (s.axes i).stepsPerMillimeter)
  else (DPiResult.configurationError, s)

/-- Modelled from the spec: `setAccelerationInMillimetersPerSecondPerSecond`
requires the millimeter conversion factor to have been set. -/
def setAccelerationInMillimetersPerSecondPerSecond (tr : Nat → Bool)
    (s : BoardState) (i : Fin numAxes) (v : ℚ) : DPiResult × BoardState :=
  if 0 < (s.axes i).stepsPerMillimeter then
    setAccelerationInStepsPerSecondPerSecond tr s i
      (v * (s.axes i).stepsPerMillimeter)
  else (DPiResult.configurationError, s)

/-- Modelled from the spec: `moveToRelativePositionInMillimeters` requires
the millimeter conversion factor to have been set. -/
def moveToRelativePositionInMillimeters (tr : Nat → Bool) (s : BoardState)
    (i : Fin numAxes) (x : ℚ) (wait : Bool) : DPiResult × BoardState :=
  if 0 < (s.axes i).stepsPerMillimeter then
    moveToRelativePositionInSteps tr s i (millimetersToSteps (s.axes i) x) wait
  else (DPiResult.configurationError, s)

/-- Modelled from the spec: `moveToAbsolutePositionInMillimeters` requires
the millimeter conversion factor to have been set. -/
def moveToAbsolutePositionInMillimeters (tr : Nat → Bool) (s : BoardState)
    (i : Fin numAxes) (x : ℚ) (wait : Bool) : DPiResult × BoardState :=
  if 0 < (s.axes i).stepsPerMillimeter then
    moveToAbsolutePositionInSteps tr s i (millimetersToSteps (s.axes i) x) wait
  else (DPiResult.configurationError, s)

/-- Modelled from the spec: `getCurrentPositionInMillimeters` requires the
millimeter conversion factor to have been set. -/
def getCurrentPositionInMillimeters (tr : Nat → Bool) (s : BoardState)
    (i : Fin numAxes) : (DPiResult × ℚ) × BoardState :=
  if 0 < (s.axes i).stepsPerMillimeter then
    let r := getCurrentPositionInSteps tr s i
    ((if r.1.1 then DPiResult.ok else DPiResult.transportFailure,
        stepsToMillimeters (s.axes i) r.1.2), r.2)
  else ((DPiResult.configurationError, 0), s)

/-- Modelled from the spec: `setSpeedInRevolutionsPerSecond` requires the
revolution conversion factor to have been set. -/
def setSpeedInRevolutionsPerSecond (tr : Nat → Bool) (s : BoardState)
    (i : Fin numAxes) (v : ℚ) : DPiResult × BoardState :=
  if 0 < (s.axes i).stepsPerRevolution then
    setSpeedInStepsPerSecond tr s i (v * (s.axes i).stepsPerRevolution)
  else (DPiResult.configurationError, s)

/-- Modelled from the spec: `setAccelerationInRevolutionsPerSecondPerSecond`
requires the revolution conversion factor to have been set. -/
def setAccelerationInRevolutionsPerSecondPerSecond (tr : Nat → Bool)
    (s : BoardState) (i : Fin numAxes) (v : ℚ) : DPiResult × BoardState :=
  if 0 < (s.axes i).stepsPerRevolution then
    setAccelerationInStepsPerSecondPerSecond tr s i
      (v * (s.axes i).stepsPerRevolution)
  else (DPiResult.configurationError, s)

/-- Modelled from the spec: `moveToAbsolutePositionInRevolutions` requires
the revolution conversion factor to have been set. -/
def moveToAbsolutePositionInRevolutions (tr : Nat → Bool) (s : BoardState)
    (i : Fin numAxes) (x : ℚ) (wait : Bool) : DPiResult × BoardState :=
  if 0 < (s.axes i).stepsPerRevolution then
    moveToAbsolutePositionInSteps tr s i (revolutionsToSteps (s.axes i) x) wait
  else (DPiResult.configurationError, s)

/-- Modelled from the spec: `setCurrentPositionInRevolutions` requires the
revolution conversion factor to have been set. -/
def setCurrentPositionInRevolutions (tr : Nat → Bool) (s : BoardState)
    (i : Fin numAxes) (x : ℚ) : DPiResult × BoardState :=
  if 0 < (s.axes i).stepsPerRevolution then
    setCurrentPositionInSteps tr s i (revolutionsToSteps (s.axes i) x)
  else (DPiResult.configurationError, s)

/-- Modelled from the spec: `getCurrentPositionInRevolutions` requires the
revolution conversion factor to have been set. -/
def getCurrentPositionInRevolutions (tr : Nat → Bool) (s : BoardState)
    (i : Fin numAxes) : (DPiResult × ℚ) × BoardState :=
  if 0 < (s.axes i).stepsPerRevolution then
    let r := getCurrentPositionInSteps tr s i
    ((if r.1.1 then DPiResult.ok else DPiResult.transportFailure,
        stepsToRevolutions (s.axes i) r.1.2), r.2)
  else ((DPiResult.configurationError, 0), s)

/-- A transport on which every attempt succeeds. -/
def perfectTransport : Nat → Bool := fun _ => true

/-- A transport that fails on the first two attempts and succeeds from the
third attempt on. -/
def failTwiceTransport : Nat → Bool := fun n => decide (2 ≤ n)

/-! ### Helper lemmas about the transport layer -/

/-- The 3-attempt retry loop, unrolled. -/
theorem sendCommand_eq (tr : Nat → Bool) :
    sendCommand tr =
      if tr 0 then (true, 0, 1)
      else if tr 1 then (true, 1, 2)
      else (tr 2, 2, 3) := by
  cases h0 : tr 0 <;> cases h1 : tr 1 <;> cases h2 : tr 2 <;>
    simp [sendCommand, retryLimit, sendAttempts, h0, h1, h2]

/-- A send whose first attempt succeeds makes one transmission and leaves
the error counter alone. -/
theorem sendCommand_first_ok (tr : Nat → Bool) (h : tr 0 = true) :
    sendCommand tr = (true, 0, 1) := by
  rw [sendCommand_eq, h]
  simp

/-- Board-level view of a send whose first attempt succeeds. -/
theorem transmit_ok (tr : Nat → Bool) (s : BoardState) (h : tr 0 = true) :
    transmit tr s = (true, { s with transmissions := s.transmissions + 1 }) := by
  simp [transmit, sendCommand_first_ok tr h]

/-! ### Helper lemmas about axis updates, motion and stopping -/

theorem updateAxis_axes_self (s : BoardState) (i : Fin numAxes)
    (f : AxisState → AxisState) : (updateAxis s i f).axes i = f (s.axes i) := by
  simp [updateAxis]

theorem updateAxis_axes_ne (s : BoardState) (i j : Fin numAxes)
    (f : AxisState → AxisState) (h : j ≠ i) :
    (updateAxis s i f).axes j = s.axes j := by
  simp [updateAxis, Function.update_noteq h]

theorem getAllMotorsStopped_iff (s : BoardState) :
    getAllMotorsStopped s = true ↔
      ∀ i : Fin numAxes, (s.axes i).position = (s.axes i).target := by
  simp [getAllMotorsStopped, axisStopped, List.all_eq_true, List.mem_finRange]

theorem ticks_succ (n : Nat) (s : BoardState) :
    ticks (n + 1) s = ticks n (tick s) := rfl

theorem tick_axes (s : BoardState) (i : Fin numAxes) :
    (tick s).axes i =
      { s.axes i with
          position := stepToward (s.axes i).position (s.axes i).target } := rfl

/-- Physical time does not change the commanded target. -/
theorem ticks_target (n : Nat) (s : BoardState) (i : Fin numAxes) :
    ((ticks n s).axes i).target = (s.axes i).target := by
  induction n generalizing s with
  | zero => rfl
  | succ n ih => rw [ticks_succ, ih, tick_axes]

/-- Each motion step brings an axis one step closer to its target. -/
theorem stepToward_natAbs (p t : Int) (k : Nat) (h : (t - p).natAbs ≤ k + 1) :
    (t - stepToward p t).natAbs ≤ k := by
  unfold stepToward
  split_ifs <;> omega

/-- After at least distance-many time units a Moving axis has reached its
target (and an Idle axis has stayed there). -/
theorem ticks_position_reaches (n : Nat) (s : BoardState) (i : Fin numAxes)
    (h : ((s.axes i).target - (s.axes i).position).natAbs ≤ n) :
    ((ticks n s).axes i).position = (s.axes i).target := by
  induction n generalizing s with
  | zero =>
      simp only [ticks]
      omega
  | succ n ih =>
      rw [ticks_succ]
      have h2 : (((tick s).axes i).target - ((tick s).axes i).position).natAbs ≤ n := by
        rw [tick_axes]
        exact stepToward_natAbs _ _ n h
      calc ((ticks n (tick s)).axes i).position
          = ((tick s).axes i).target := ih (tick s) h2
        _ = (s.axes i).target := by rw [tick_axes]

/-! ### Helper lemmas about rounding -/

theorem floor_add_half_close (q : ℚ) :
    |((Int.floor (q + 1 / 2) : ℚ)) - q| ≤ 1 / 2 := by
  rw [abs_le]
  constructor
  · have h := Int.lt_floor_add_one (q + 1 / 2)
    linarith
  · have h := Int.floor_le (q + 1 / 2)
    linarith

/-- Rounding ties-away-from-zero moves a rational by at most a half. -/
theorem roundTiesAway_close (q : ℚ) :
    |((roundTiesAway q : ℚ)) - q| ≤ 1 / 2 := by
  unfold roundTiesAway
  split_ifs with h
  · exact floor_add_half_close q
  · have h2 := floor_add_half_close (-q)
    rw [Int.cast_neg]
    have h3 : -((Int.floor (-q + 1 / 2) : ℚ)) - q
        = -((Int.floor (-q + 1 / 2) : ℚ) - -q) := by ring
    rw [h3, abs_neg]
    exact h2

/-- Dividing the rounded product back by the scale factor returns within
one scale unit of the original quantity. -/
theorem roundTiesAway_roundtrip (n X : ℚ) (hn : 0 < n) :
    |((roundTiesAway (X * n) : ℚ)) / n - X| ≤ 1 / n := by
  have h := roundTiesAway_close (X * n)
  have hne : n ≠ 0 := ne_of_gt hn
  have heq : (((roundTiesAway (X * n) : ℚ)) - X * n) / n
      = ((roundTiesAway (X * n) : ℚ)) / n - X := by
    rw [sub_div, mul_div_assoc, div_self hne, mul_one]
  rw [← heq, abs_div, abs_of_pos hn]
  exact (div_le_div_iff_of_pos_right hn).mpr (le_trans h (by norm_num))

/-- The first axis of a board (stepper number 0). -/
def axis0 : Fin numAxes := ⟨0, by decide⟩

/-- The second axis of a board (stepper number 1). -/
def axis1 : Fin numAxes := ⟨1, by decide⟩

/-! ### The claims -/

/-- Claim C1: every call of the transport send operation makes at most 3
total transmission attempts; on a transport that fails the first two
attempts and succeeds on the third, the operation returns success to the
caller and the cumulative communication-error counter grows by exactly 2
(one per failed, retried attempt; a final give-up is never counted). -/
theorem C1_transport_retry (tr : Nat → Bool) (s : BoardState)
    (h0 : tr 0 = false) (h1 : tr 1 = false) (h2 : tr 2 = true) :
    (∀ tr2 : Nat → Bool, (sendCommand tr2).2.2 ≤ 3) ∧
    (transmit tr s).1 = true ∧
    (transmit tr s).2.commErrorCount = s.commErrorCount + 2 := by
  refine ⟨?_, ?_, ?_⟩
  · intro tr2
    rw [sendCommand_eq]
    split_ifs <;> simp
  · simp [transmit, sendCommand_eq, h0, h1, h2]
  · simp [transmit, sendCommand_eq, h0, h1, h2]

/-- Concrete run of `C1_transport_retry` on the fail-twice transport and a
fresh board. -/
theorem C1_transport_retry_witness :
    (transmit failTwiceTransport initialBoard).1 = true ∧
    (transmit failTwiceTransport initialBoard).2.commErrorCount
      = initialBoard.commErrorCount + 2 :=
  ⟨(C1_transport_retry failTwiceTransport initialBoard rfl rfl rfl).2.1,
   (C1_transport_retry failTwiceTransport initialBoard rfl rfl rfl).2.2⟩

/-- Claim C2: `setMicrostepping` succeeds on every value in
{1,2,4,8,16,32}; on any other value it fails with a configuration error,
sends no command over the transport (the transmission count is unchanged)
and leaves the error counter unchanged. -/
theorem C2_setMicrostepping (v : Nat) (s : BoardState) (tr : Nat → Bool)
    (h : tr 0 = true) :
    (validMicrostepping v = true → (setMicrostepping tr s v).1 = DPiResult.ok) ∧
    (validMicrostepping v = false →
      setMicrostepping tr s v = (DPiResult.configurationError, s) ∧
      ((setMicrostepping tr s v).2).transmissions = s.transmissions ∧
      ((setMicrostepping tr s v).2).commErrorCount = s.commErrorCount) := by
  constructor
  · intro hv
    simp [setMicrostepping, hv, transmit_ok tr s h]
  · intro hv
    simp [setMicrostepping, hv]

/-- Concrete run of `C2_setMicrostepping` at the valid value 8 and the
invalid value 5. -/
theorem C2_setMicrostepping_witness :
    (setMicrostepping perfectTransport initialBoard 8).1 = DPiResult.ok ∧
    setMicrostepping perfectTransport initialBoard 5
      = (DPiResult.configurationError, initialBoard) :=
  ⟨(C2_setMicrostepping 8 initialBoard perfectTransport rfl).1 rfl,
   ((C2_setMicrostepping 5 initialBoard perfectTransport rfl).2 rfl).1⟩

/-- Claim C3: a successful blocking absolute move to P followed
immediately by a position query (with no homing or position override in
between) reports communication success and position P. -/
theorem C3_moveAbs_then_query (s : BoardState) (i : Fin numAxes) (P : Int)
    (tr1 tr2 : Nat → Bool) (h1 : tr1 0 = true) (h2 : tr2 0 = true) :
    (moveToAbsolutePositionInSteps tr1 s i P true).1 = DPiResult.ok ∧
    (getCurrentPositionInSteps tr2
        (moveToAbsolutePositionInSteps tr1 s i P true).2 i).1 = (true, P) := by
  have hmv : moveToAbsolutePositionInSteps tr1 s i P true
      = (DPiResult.ok,
         updateAxis { s with transmissions := s.transmissions + 1 } i
           fun a => { a with position := P, target := P }) := by
    simp [moveToAbsolutePositionInSteps, transmit_ok tr1 s h1]
  rw [hmv]
  refine ⟨rfl, ?_⟩
  simp [getCurrentPositionInSteps, transmit, sendCommand_first_ok tr2 h2,
    updateAxis_axes_self]

/-- Concrete run of `C3_moveAbs_then_query`: move axis 0 to 3200 and read
the position back. -/
theorem C3_moveAbs_then_query_witness :
    (moveToAbsolutePositionInSteps perfectTransport initialBoard axis0 3200 true).1
      = DPiResult.ok ∧
    (getCurrentPositionInSteps perfectTransport
        (moveToAbsolutePositionInSteps perfectTransport initialBoard axis0 3200 true).2
        axis0).1 = (true, 3200) :=
  C3_moveAbs_then_query initialBoard axis0 3200 perfectTransport perfectTransport rfl rfl

/-- Claim C4: after `setStepsPerMillimeter` stores a positive factor n,
converting X millimeters yields round(X*n) steps (nearest, ties away from
zero), and converting those steps back to millimeters lands within 1/n of
X. -/
theorem C4_unit_roundtrip (n X : ℚ) (s : BoardState) (i : Fin numAxes)
    (tr : Nat → Bool) (hn : 0 < n) (h : tr 0 = true) :
    (setStepsPerMillimeter tr s i n).1 = DPiResult.ok ∧
    millimetersToSteps (((setStepsPerMillimeter tr s i n).2).axes i) X
      = roundTiesAway (X * n) ∧
    |stepsToMillimeters (((setStepsPerMillimeter tr s i n).2).axes i)
        (millimetersToSteps (((setStepsPerMillimeter tr s i n).2).axes i) X) - X|
      ≤ 1 / n := by
  have hset : setStepsPerMillimeter tr s i n
      = (DPiResult.ok,
         updateAxis { s with transmissions := s.transmissions + 1 } i
           fun a => { a with stepsPerMillimeter := n }) := by
    simp [setStepsPerMillimeter, hn, transmit_ok tr s h]
  have hax : (((setStepsPerMillimeter tr s i n).2).axes i).stepsPerMillimeter = n := by
    rw [hset, updateAxis_axes_self]
  refine ⟨by rw [hset], ?_, ?_⟩
  · rw [millimetersToSteps, hax]
  · rw [stepsToMillimeters, millimetersToSteps, hax]
    exact roundTiesAway_roundtrip n X hn

/-- Concrete run of `C4_unit_roundtrip` with 64 steps per millimeter and a
quantity of 5/2 millimeters. -/
theorem C4_unit_roundtrip_witness :
    (setStepsPerMillimeter perfectTransport initialBoard axis0 64).1 = DPiResult.ok ∧
    millimetersToSteps
        (((setStepsPerMillimeter perfectTransport initialBoard axis0 64).2).axes axis0)
        (5 / 2)
      = roundTiesAway ((5 / 2) * 64) ∧
    |stepsToMillimeters
        (((setStepsPerMillimeter perfectTransport initialBoard axis0 64).2).axes axis0)
        (millimetersToSteps
          (((setStepsPerMillimeter perfectTransport initialBoard axis0 64).2).axes axis0)
          (5 / 2)) - 5 / 2|
      ≤ 1 / 64 :=
  C4_unit_roundtrip 64 (5 / 2) initialBoard axis0 perfectTransport (by norm_num) rfl

/-- Claim C8: the value-returning queries do not return bare values:
`getCurrentPositionInSteps` returns a pair of the communication-success
flag and the position, and `getStepperStatus` returns the 4-tuple
(success, stopped, enabled, homed) in exactly that order. -/
theorem C8_query_tuples (s : BoardState) (i : Fin numAxes)
    (tr1 tr2 : Nat → Bool) (h1 : tr1 0 = true) (h2 : tr2 0 = true) :
    (getCurrentPositionInSteps tr1 s i).1 = (true, (s.axes i).position) ∧
    (getStepperStatus tr2 s i).1
      = (true, axisStopped (s.axes i), s.motorsEnabled, (s.axes i).homed) := by
  constructor
  · simp [getCurrentPositionInSteps, transmit, sendCommand_first_ok tr1 h1]
  · simp [getStepperStatus, transmit, sendCommand_first_ok tr2 h2]

/-- Concrete run of `C8_query_tuples` on a fresh board. -/
theorem C8_query_tuples_witness :
    (getCurrentPositionInSteps perfectTransport initialBoard axis1).1
      = (true, (initialBoard.axes axis1).position) ∧
    (getStepperStatus perfectTransport initialBoard axis1).1
      = (true, axisStopped (initialBoard.axes axis1), initialBoard.motorsEnabled,
          (initialBoard.axes axis1).homed) :=
  C8_query_tuples initialBoard axis1 perfectTransport perfectTransport rfl rfl

/-- Claim C5: when `moveToHomeInSteps` is given a maximum distance smaller
than the actual distance to the home sensor, it returns failure and leaves
the axis position wherever the search stopped (the start position plus the
full maximum distance in the commanded direction), not reset to 0. -/
theorem C5_homing_failure (s : BoardState) (i : Fin numAxes) (direction : Int)
    (speed : ℚ) (maxDistance distanceToHome : Nat) (tr : Nat → Bool)
    (hdir : direction = 1 ∨ direction = -1) (hspeed : 0 < speed)
    (h : tr 0 = true) (hfar : maxDistance < distanceToHome) :
    (moveToHomeInSteps tr s i direction speed maxDistance distanceToHome).1 = false ∧
    (((moveToHomeInSteps tr s i direction speed maxDistance distanceToHome).2).axes i).position
      = (s.axes i).position + direction * maxDistance := by
  have hnot : ¬ distanceToHome ≤ maxDistance := by omega
  rcases hdir with hd | hd <;> subst hd <;>
    simp [moveToHomeInSteps, hspeed, hnot, transmit, sendCommand_first_ok tr h,
      updateAxis_axes_self]

/-- Concrete run of `C5_homing_failure`: searching at most 3200 steps for
a sensor that is 5000 steps away, starting from position 100. -/
theorem C5_homing_failure_witness :
    (moveToHomeInSteps perfectTransport
        (updateAxis initialBoard axis0 fun a => { a with position := 100, target := 100 })
        axis0 1 800 3200 5000).1 = false ∧
    (((moveToHomeInSteps perfectTransport
        (updateAxis initialBoard axis0 fun a => { a with position := 100, target := 100 })
        axis0 1 800 3200 5000).2).axes axis0).position
      = (((updateAxis initialBoard axis0 fun a =>
            { a with position := 100, target := 100 }).axes axis0)).position + 1 * 3200 :=
  C5_homing_failure
    (updateAxis initialBoard axis0 fun a => { a with position := 100, target := 100 })
    axis0 1 800 3200 5000 perfectTransport (Or.inl rfl) (by norm_num) rfl (by norm_num)

/-- Claim C9: a successful `moveToHomeInSteps` (sensor within the maximum
distance) returns success and sets the axis position to 0, so an
immediately following position query reports (true, 0). -/
theorem C9_homing_success (s : BoardState) (i : Fin numAxes) (direction : Int)
    (speed : ℚ) (maxDistance distanceToHome : Nat) (tr1 tr2 : Nat → Bool)
    (hdir : direction = 1 ∨ direction = -1) (hspeed : 0 < speed)
    (h1 : tr1 0 = true) (h2 : tr2 0 = true)
    (hfound : distanceToHome ≤ maxDistance) :
    (moveToHomeInSteps tr1 s i direction speed maxDistance distanceToHome).1 = true ∧
    (((moveToHomeInSteps tr1 s i direction speed maxDistance distanceToHome).2).axes i).position = 0 ∧
    (getCurrentPositionInSteps tr2
        (moveToHomeInSteps tr1 s i direction speed maxDistance distanceToHome).2 i).1
      = (true, 0) := by
  rcases hdir with hd | hd <;> subst hd <;>
    simp [moveToHomeInSteps, hspeed, hfound, transmit, sendCommand_first_ok tr1 h1,
      sendCommand_first_ok tr2 h2, getCurrentPositionInSteps, updateAxis_axes_self]

/-- Concrete run of `C9_homing_success`: the sensor is 1000 steps away and
the search is allowed 3200, starting from position 100. -/
theorem C9_homing_success_witness :
    (moveToHomeInSteps perfectTransport
        (updateAxis initialBoard axis0 fun a => { a with position := 100, target := 100 })
        axis0 1 800 3200 1000).1 = true ∧
    (((moveToHomeInSteps perfectTransport
        (updateAxis initialBoard axis0 fun a => { a with position := 100, target := 100 })
        axis0 1 800 3200 1000).2).axes axis0).position = 0 ∧
    (getCurrentPositionInSteps perfectTransport
        (moveToHomeInSteps perfectTransport
          (updateAxis initialBoard axis0 fun a => { a with position := 100, target := 100 })
          axis0 1 800 3200 1000).2 axis0).1 = (true, 0) :=
  C9_homing_success
    (updateAxis initialBoard axis0 fun a => { a with position := 100, target := 100 })
    axis0 1 800 3200 1000 perfectTransport perfectTransport (Or.inl rfl)
    (by norm_num) rfl rfl (by norm_num)

/-- Claim C10: `setCurrentPositionInSteps` succeeds and redefines the
reported position of the axis without commanding motion: the axis is left
stopped at the new coordinate, its speed, acceleration, microstepping,
conversion factors and homed flag are untouched, every other axis is
untouched, and the board enable flag is untouched. -/
theorem C10_setCurrentPosition (s : BoardState) (i : Fin numAxes) (p : Int)
    (tr : Nat → Bool) (h : tr 0 = true) :
    (setCurrentPositionInSteps tr s i p).1 = DPiResult.ok ∧
    (((setCurrentPositionInSteps tr s i p).2).axes i).position = p ∧
    axisStopped (((setCurrentPositionInSteps tr s i p).2).axes i) = true ∧
    (((setCurrentPositionInSteps tr s i p).2).axes i).speedInStepsPerSecond
      = (s.axes i).speedInStepsPerSecond ∧
    (((setCurrentPositionInSteps tr s i p).2).axes i).accelerationInStepsPerSecondPerSecond
      = (s.axes i).accelerationInStepsPerSecondPerSecond ∧
    (((setCurrentPositionInSteps tr s i p).2).axes i).microstepping
      = (s.axes i).microstepping ∧
    (((setCurrentPositionInSteps tr s i p).2).axes i).stepsPerMillimeter
      = (s.axes i).stepsPerMillimeter ∧
    (((setCurrentPositionInSteps tr s i p).2).axes i).stepsPerRevolution
      = (s.axes i).stepsPerRevolution ∧
    (((setCurrentPositionInSteps tr s i p).2).axes i).homed = (s.axes i).homed ∧
    (∀ j : Fin numAxes, j ≠ i →
      ((setCurrentPositionInSteps tr s i p).2).axes j = s.axes j) ∧
    ((setCurrentPositionInSteps tr s i p).2).motorsEnabled = s.motorsEnabled := by
  have hset : setCurrentPositionInSteps tr s i p
      = (DPiResult.ok,
         updateAxis { s with transmissions := s.transmissions + 1 } i
           fun a => { a with position := p, target := p }) := by
    simp [setCurrentPositionInSteps, transmit_ok tr s h]
  rw [hset]
  refine ⟨rfl, ?_, ?_, ?_, ?_, ?_, ?_, ?_, ?_, ?_, ?_⟩ <;>
    simp [updateAxis, axisStopped]
  intro j hj
  exact Function.update_noteq hj _ _

/-- Concrete run of `C10_setCurrentPosition`: override the position of
axis 0 of a fresh board to -250. -/
theorem C10_setCurrentPosition_witness :
    (setCurrentPositionInSteps perfectTransport initialBoard axis0 (-250)).1
      = DPiResult.ok ∧
    (((setCurrentPositionInSteps perfectTransport initialBoard axis0 (-250)).2).axes
        axis0).position = -250 ∧
    axisStopped (((setCurrentPositionInSteps perfectTransport initialBoard axis0
        (-250)).2).axes axis0) = true ∧
    (((setCurrentPositionInSteps perfectTransport initialBoard axis0 (-250)).2).axes
        axis0).speedInStepsPerSecond = (initialBoard.axes axis0).speedInStepsPerSecond ∧
    (((setCurrentPositionInSteps perfectTransport initialBoard axis0 (-250)).2).axes
        axis0).accelerationInStepsPerSecondPerSecond
      = (initialBoard.axes axis0).accelerationInStepsPerSecondPerSecond ∧
    (((setCurrentPositionInSteps perfectTransport initialBoard axis0 (-250)).2).axes
        axis0).microstepping = (initialBoard.axes axis0).microstepping ∧
    (((setCurrentPositionInSteps perfectTransport initialBoard axis0 (-250)).2).axes
        axis0).stepsPerMillimeter = (initialBoard.axes axis0).stepsPerMillimeter ∧
    (((setCurrentPositionInSteps perfectTransport initialBoard axis0 (-250)).2).axes
        axis0).stepsPerRevolution = (initialBoard.axes axis0).stepsPerRevolution ∧
    (((setCurrentPositionInSteps perfectTransport initialBoard axis0 (-250)).2).axes
        axis0).homed = (initialBoard.axes axis0).homed ∧
    (∀ j : Fin numAxes, j ≠ axis0 →
      ((setCurrentPositionInSteps perfectTransport initialBoard axis0 (-250)).2).axes j
        = initialBoard.axes j) ∧
    ((setCurrentPositionInSteps perfectTransport initialBoard axis0
        (-250)).2).motorsEnabled = initialBoard.motorsEnabled :=
  C10_setCurrentPosition initialBoard axis0 (-250) perfectTransport rfl

/-- Claim C7: on an axis whose millimeter conversion factor has not been
set to a strictly positive value, every millimeter-unit operation fails
with a configuration error and changes nothing; independently, on an axis
whose revolution conversion factor has not been set to a strictly
positive value, every revolution-unit operation fails with a
configuration error and changes nothing. -/
theorem C7_unset_conversion_factors (s : BoardState) (i : Fin numAxes)
    (tr : Nat → Bool) (v x : ℚ) (w : Bool) :
    ((s.axes i).stepsPerMillimeter ≤ 0 →
      setSpeedInMillimetersPerSecond tr s i v = (DPiResult.configurationError, s) ∧
      setAccelerationInMillimetersPerSecondPerSecond tr s i v
        = (DPiResult.configurationError, s) ∧
      moveToRelativePositionInMillimeters tr s i x w
        = (DPiResult.configurationError, s) ∧
      moveToAbsolutePositionInMillimeters tr s i x w
        = (DPiResult.configurationError, s) ∧
      getCurrentPositionInMillimeters tr s i
        = ((DPiResult.configurationError, 0), s)) ∧
    ((s.axes i).stepsPerRevolution ≤ 0 →
      setSpeedInRevolutionsPerSecond tr s i v = (DPiResult.configurationError, s) ∧
      setAccelerationInRevolutionsPerSecondPerSecond tr s i v
        = (DPiResult.configurationError, s) ∧
      moveToAbsolutePositionInRevolutions tr s i x w
        = (DPiResult.configurationError, s) ∧
      setCurrentPositionInRevolutions tr s i x
        = (DPiResult.configurationError, s) ∧
      getCurrentPositionInRevolutions tr s i
        = ((DPiResult.configurationError, 0), s)) := by
  constructor
  · intro hmm
    have hm : ¬ 0 < (s.axes i).stepsPerMillimeter := not_lt.mpr hmm
    simp [setSpeedInMillimetersPerSecond,
      setAccelerationInMillimetersPerSecondPerSecond,
      moveToRelativePositionInMillimeters, moveToAbsolutePositionInMillimeters,
      getCurrentPositionInMillimeters, hm]
  · intro hrev
    have hr : ¬ 0 < (s.axes i).stepsPerRevolution := not_lt.mpr hrev
    simp [setSpeedInRevolutionsPerSecond,
      setAccelerationInRevolutionsPerSecondPerSecond,
      moveToAbsolutePositionInRevolutions, setCurrentPositionInRevolutions,
      getCurrentPositionInRevolutions, hr]

/-- Concrete runs of `C7_unset_conversion_factors`, each factor unset on
its own: millimeter-unit calls fail on an axis whose revolution factor
alone has been set, and revolution-unit calls fail on an axis whose
millimeter factor alone has been set (the demo script state right after
setStepsPerMillimeter(0, 64)). -/
theorem C7_unset_conversion_factors_witness :
    (setSpeedInMillimetersPerSecond perfectTransport
        (updateAxis initialBoard axis0 fun a => { a with stepsPerRevolution := 1600 })
        axis0 100
      = (DPiResult.configurationError,
         updateAxis initialBoard axis0 fun a => { a with stepsPerRevolution := 1600 }) ∧
      setAccelerationInMillimetersPerSecondPerSecond perfectTransport
        (updateAxis initialBoard axis0 fun a => { a with stepsPerRevolution := 1600 })
        axis0 100
      = (DPiResult.configurationError,
         updateAxis initialBoard axis0 fun a => { a with stepsPerRevolution := 1600 }) ∧
      moveToRelativePositionInMillimeters perfectTransport
        (updateAxis initialBoard axis0 fun a => { a with stepsPerRevolution := 1600 })
        axis0 (-100) true
      = (DPiResult.configurationError,
         updateAxis initialBoard axis0 fun a => { a with stepsPerRevolution := 1600 }) ∧
      moveToAbsolutePositionInMillimeters perfectTransport
        (updateAxis initialBoard axis0 fun a => { a with stepsPerRevolution := 1600 })
        axis0 (-100) true
      = (DPiResult.configurationError,
         updateAxis initialBoard axis0 fun a => { a with stepsPerRevolution := 1600 }) ∧
      getCurrentPositionInMillimeters perfectTransport
        (updateAxis initialBoard axis0 fun a => { a with stepsPerRevolution := 1600 })
        axis0
      = ((DPiResult.configurationError, 0),
         updateAxis initialBoard axis0 fun a => { a with stepsPerRevolution := 1600 })) ∧
    (setSpeedInRevolutionsPerSecond perfectTransport
        (updateAxis initialBoard axis0 fun a => { a with stepsPerMillimeter := 64 })
        axis0 100
      = (DPiResult.configurationError,
         updateAxis initialBoard axis0 fun a => { a with stepsPerMillimeter := 64 }) ∧
      setAccelerationInRevolutionsPerSecondPerSecond perfectTransport
        (updateAxis initialBoard axis0 fun a => { a with stepsPerMillimeter := 64 })
        axis0 100
      = (DPiResult.configurationError,
         updateAxis initialBoard axis0 fun a => { a with stepsPerMillimeter := 64 }) ∧
      moveToAbsolutePositionInRevolutions perfectTransport
        (updateAxis initialBoard axis0 fun a => { a with stepsPerMillimeter := 64 })
        axis0 (-100) true
      = (DPiResult.configurationError,
         updateAxis initialBoard axis0 fun a => { a with stepsPerMillimeter := 64 }) ∧
      setCurrentPositionInRevolutions perfectTransport
        (updateAxis initialBoard axis0 fun a => { a with stepsPerMillimeter := 64 })
        axis0 (-100)
      = (DPiResult.configurationError,
         updateAxis initialBoard axis0 fun a => { a with stepsPerMillimeter := 64 }) ∧
      getCurrentPositionInRevolutions perfectTransport
        (updateAxis initialBoard axis0 fun a => { a with stepsPerMillimeter := 64 })
        axis0
      = ((DPiResult.configurationError, 0),
         updateAxis initialBoard axis0 fun a => { a with stepsPerMillimeter := 64 })) :=
  ⟨(C7_unset_conversion_factors
      (updateAxis initialBoard axis0 fun a => { a with stepsPerRevolution := 1600 })
      axis0 perfectTransport 100 (-100) true).1 (by decide),
   (C7_unset_conversion_factors
      (updateAxis initialBoard axis0 fun a => { a with stepsPerMillimeter := 64 })
      axis0 perfectTransport 100 (-100) true).2 (by decide)⟩

/-- Per-axis effect of two back-to-back non-blocking relative moves on
distinct axes: each commanded axis keeps its position and gets its own new
target; every other axis is untouched. -/
theorem twoMoves_axes (s : BoardState) (i j l : Fin numAxes) (hij : i ≠ j)
    (d1 d2 : Int) (tr1 tr2 : Nat → Bool) (h1 : tr1 0 = true) (h2 : tr2 0 = true) :
    ((moveToRelativePositionInSteps tr2
        (moveToRelativePositionInSteps tr1 s i d1 false).2 j d2 false).2).axes l
      = if l = i then { s.axes i with target := (s.axes i).position + d1 }
        else if l = j then { s.axes j with target := (s.axes j).position + d2 }
        else s.axes l := by
  have hji : j ≠ i := Ne.symm hij
  by_cases hli : l = i
  · subst hli
    simp [moveToRelativePositionInSteps, moveToAbsolutePositionInSteps, transmit,
      sendCommand_first_ok tr1 h1, sendCommand_first_ok tr2 h2, updateAxis,
      Function.update_noteq hij, hji]
  · by_cases hlj : l = j
    · subst hlj
      simp [moveToRelativePositionInSteps, moveToAbsolutePositionInSteps, transmit,
        sendCommand_first_ok tr1 h1, sendCommand_first_ok tr2 h2, updateAxis,
        Function.update_noteq hji, hli]
    · simp [moveToRelativePositionInSteps, moveToAbsolutePositionInSteps, transmit,
        sendCommand_first_ok tr1 h1, sendCommand_first_ok tr2 h2, updateAxis,
        Function.update_noteq hli, Function.update_noteq hlj, hli, hlj]

/-- Claim C6: on a board whose motors are all stopped, two back-to-back
non-blocking relative moves on two distinct axes both succeed, polling
eventually observes all motors stopped, and each axis ends at its own
start position plus its own requested delta — the two moves are logically
independent. -/
theorem C6_two_nonblocking_moves (s : BoardState) (i j : Fin numAxes)
    (hij : i ≠ j) (d1 d2 : Int) (tr1 tr2 : Nat → Bool)
    (h1 : tr1 0 = true) (h2 : tr2 0 = true)
    (hstop : getAllMotorsStopped s = true) :
    (moveToRelativePositionInSteps tr1 s i d1 false).1 = DPiResult.ok ∧
    (moveToRelativePositionInSteps tr2
        (moveToRelativePositionInSteps tr1 s i d1 false).2 j d2 false).1
      = DPiResult.ok ∧
    ∃ k : Nat,
      getAllMotorsStopped (ticks k (moveToRelativePositionInSteps tr2
          (moveToRelativePositionInSteps tr1 s i d1 false).2 j d2 false).2) = true ∧
      ((ticks k (moveToRelativePositionInSteps tr2
          (moveToRelativePositionInSteps tr1 s i d1 false).2 j d2 false).2).axes
          i).position = (s.axes i).position + d1 ∧
      ((ticks k (moveToRelativePositionInSteps tr2
          (moveToRelativePositionInSteps tr1 s i d1 false).2 j d2 false).2).axes
          j).position = (s.axes j).position + d2 := by
  have hall := (getAllMotorsStopped_iff s).mp hstop
  have hji : j ≠ i := Ne.symm hij
  refine ⟨?_, ?_, ?_⟩
  · simp [moveToRelativePositionInSteps, moveToAbsolutePositionInSteps, transmit,
      sendCommand_first_ok tr1 h1]
  · simp [moveToRelativePositionInSteps, moveToAbsolutePositionInSteps, transmit,
      sendCommand_first_ok tr1 h1, sendCommand_first_ok tr2 h2]
  · set s2 := (moveToRelativePositionInSteps tr2
        (moveToRelativePositionInSteps tr1 s i d1 false).2 j d2 false).2 with hs2
    have hax : ∀ l : Fin numAxes, s2.axes l
        = if l = i then { s.axes i with target := (s.axes i).position + d1 }
          else if l = j then { s.axes j with target := (s.axes j).position + d2 }
          else s.axes l := by
      intro l
      rw [hs2]
      exact twoMoves_axes s i j l hij d1 d2 tr1 tr2 h1 h2
    have hdist : ∀ l : Fin numAxes,
        ((s2.axes l).target - (s2.axes l).position).natAbs
          ≤ d1.natAbs + d2.natAbs := by
      intro l
      by_cases hli : l = i
      · rw [hax l, if_pos hli]
        dsimp only
        omega
      · by_cases hlj : l = j
        · rw [hax l, if_neg hli, if_pos hlj]
          dsimp only
          omega
        · rw [hax l, if_neg hli, if_neg hlj]
          have := hall l
          omega
    refine ⟨d1.natAbs + d2.natAbs, ?_, ?_, ?_⟩
    · rw [getAllMotorsStopped_iff]
      intro l
      rw [ticks_position_reaches _ s2 l (hdist l), ticks_target]
    · rw [ticks_position_reaches _ s2 i (hdist i), hax i]
      simp [hij]
    · rw [ticks_position_reaches _ s2 j (hdist j), hax j]
      simp [hji]

/-- Concrete run of `C6_two_nonblocking_moves`: axis 0 one turn forward
and axis 1 two turns backward, as in the demo script. -/
theorem C6_two_nonblocking_moves_witness :
    (moveToRelativePositionInSteps perfectTransport initialBoard axis0 1600 false).1
      = DPiResult.ok ∧
    (moveToRelativePositionInSteps perfectTransport
        (moveToRelativePositionInSteps perfectTransport initialBoard axis0 1600
          false).2 axis1 (-3200) false).1 = DPiResult.ok ∧
    ∃ k : Nat,
      getAllMotorsStopped (ticks k (moveToRelativePositionInSteps perfectTransport
          (moveToRelativePositionInSteps perfectTransport initialBoard axis0 1600
            false).2 axis1 (-3200) false).2) = true ∧
      ((ticks k (moveToRelativePositionInSteps perfectTransport
          (moveToRelativePositionInSteps perfectTransport initialBoard axis0 1600
            false).2 axis1 (-3200) false).2).axes axis0).position
        = (initialBoard.axes axis0).position + 1600 ∧
      ((ticks k (moveToRelativePositionInSteps perfectTransport
          (moveToRelativePositionInSteps perfectTransport initialBoard axis0 1600
            false).2 axis1 (-3200) false).2).axes axis1).position
        = (initialBoard.axes axis1).position + (-3200) :=
  C6_two_nonblocking_moves initialBoard axis0 axis1 (by decide) 1600 (-3200)
    perfectTransport perfectTransport rfl rfl (by decide)
